import Mathlib

/-!
# Verification of the docker load-balancer orchestrator

A shallow embedding of `pkg/docker/loadbalancer.go`: the `LoadBalancer`
struct and its `Create`, `UpdateConfiguration`, `IP` and `Delete`
operations, together with the constructor `NewLoadBalancer`.

External collaborators (the container runtime adapter, backend discovery,
and the config renderer) are modelled as a deterministic environment
(`Env`) of response functions, and every operation additionally returns
the list of collaborator calls it issued (`Call`), so that claims about
"no write / no signal was performed" become statements about that trace.
-/

namespace CAPD

/-- Error values: Go `error` modelled by its message string. -/
abbrev Err := String

/-- An execution unit (a `*types.Node` handle), identified by its name. -/
structure Node where
  name : String
deriving DecidableEq, Repr

/-- The role label value for control-plane nodes
(`constants.ControlPlaneNodeRoleValue` from the kind constants package,
not part of this repository). -/
def controlPlaneRole : String := "control-plane"

/-- The role label value for the external load balancer
(`constants.ExternalLoadBalancerNodeRoleValue` from the kind constants
package, not part of this repository). -/
def externalLoadBalancerRole : String := "external-load-balancer"

/-- Modelled from the spec: `loadbalancer.ConfigPath`, "a well-known path
inside the execution unit" owned by the external renderer/runtime
contract; the core treats it as a fixed path string. -/
def ConfigPath : String := "/usr/local/etc/haproxy/haproxy.cfg"

/-- Modelled from the spec: `loadbalancer.Image`, the compiled-in default
image name (the spec's example default is "kindest/haproxy:2.1.1-alpine"). -/
def Image : String := "haproxy"

/-- Modelled from the spec: `loadbalancer.DefaultImageRepository`. -/
def DefaultImageRepository : String := "kindest"

/-- Modelled from the spec: `loadbalancer.DefaultImageTag`. -/
def DefaultImageTag : String := "2.1.1-alpine"

/-- `loadbalancer.ConfigData`: the options handed to the config renderer.
`backendServers` is the Go `map[string]string` as an association list in
insertion order (keys unique). -/
structure ConfigData where
  controlPlanePort : Nat
  backendServers : List (String × String)
  enableStats : Bool
deriving DecidableEq, Repr

/-- One call issued to an external collaborator (runtime adapter,
discovery, or renderer) during an operation. -/
inductive Call where
  | getContainer (clusterName role : String)
  | listContainers (clusterName role : String)
  | nodeIP (node : String)
  | render (data : ConfigData)
  | writeFile (path content : String)
  | signal (sig : String)
  | createLB (name image clusterName listenAddr : String) (port : Nat)
  | deleteLB (node : String)
  | address (node : String)
deriving DecidableEq, Repr

/-- The deterministic responses of the external collaborators for one run:
discovery results, per-node address resolution, the renderer, and the
runtime adapter's write/signal/create/delete/address endpoints.
`Option Err` is `none` on success, `some e` on failure. -/
structure Env where
  lookupLB : Except Err (Option Node)
  listControlPlanes : Except Err (List Node)
  resolveIP : Node → Except Err String
  render : ConfigData → Except Err String
  write : String → String → Option Err
  sendSignal : String → Option Err
  create : Except Err Node
  deleteUnit : Option Err
  address : Node → Except Err String

/-- The orchestrator state: `LoadBalancer` from `loadbalancer.go`.
`container` is the optional attached execution-unit handle
(`*types.Node`, nil when absent). -/
structure LoadBalancer where
  name : String
  image : String
  container : Option Node
deriving DecidableEq, Repr

/-- `getLoadBalancerImage`: a non-empty per-cluster override
(`dockerCluster.Spec.LoadBalancerImage`) takes precedence over the
compiled-in default `repository/name:tag`; `none` models a nil
`dockerCluster`. -/
def getLoadBalancerImage (dockerCluster : Option String) : String :=
  match dockerCluster with
  | some img => if img ≠ "" then img
      else DefaultImageRepository ++ "/" ++ Image ++ ":" ++ DefaultImageTag
  | none => DefaultImageRepository ++ "/" ++ Image ++ ":" ++ DefaultImageTag

/-- `containerName`: the deterministic container name `"<cluster>-lb"`. -/
def LoadBalancer.containerName (s : LoadBalancer) : String :=
  s.name ++ "-lb"

/-- `NewLoadBalancer`: fails on an empty cluster name, otherwise queries
discovery for an existing load-balancer container (attaching it if found)
and resolves the image. -/
def newLoadBalancer (clusterName : String) (dockerCluster : Option String)
    (env : Env) : Except Err LoadBalancer × List Call :=
  if clusterName = "" then
    (Except.error "create load balancer: cluster name is empty", [])
  else
    match env.lookupLB with
    | Except.error e => (Except.error e, [Call.getContainer clusterName externalLoadBalancerRole])
    | Except.ok c =>
        (Except.ok { name := clusterName,
                     image := getLoadBalancerImage dockerCluster,
                     container := c },
         [Call.getContainer clusterName externalLoadBalancerRole])

/-- `Create`: no-op when a container is already attached; otherwise asks
the creator for a new execution unit named `containerName`, listening on
`0.0.0.0` port `0`, and attaches the returned handle on success. On
creator error the error is returned (wrapped with a stack only) and the
state is unchanged. -/
def LoadBalancer.create (s : LoadBalancer) (env : Env) :
    (Except Err Unit × LoadBalancer) × List Call :=
  match s.container with
  | some _ => ((Except.ok (), s), [])
  | none =>
      match env.create with
      | Except.error e =>
          ((Except.error e, s),
           [Call.createLB s.containerName s.image s.name "0.0.0.0" 0])
      | Except.ok node =>
          ((Except.ok (), { s with container := some node }),
           [Call.createLB s.containerName s.image s.name "0.0.0.0" 0])

/-- Go's `net.JoinHostPort`: brackets the host when it contains a colon
(the colon test is on the host's character list). -/
def joinHostPort (host port : String) : String :=
  if host.data.contains ':' then "[" ++ host ++ "]:" ++ port
  else host ++ ":" ++ port

/-- Go map assignment `m[k] = v` on an association list: overwrite the
existing binding in place, or append a new one. -/
def mapInsert : List (String × String) → String → String → List (String × String)
  | [], k, v => [(k, v)]
  | (k', v') :: rest, k, v =>
      if k' = k then (k, v) :: rest
      else (k', v') :: mapInsert rest k v

/-- The backend-collection loop of `UpdateConfiguration`: for each
discovered node in order, resolve its IP (aborting the whole call on the
first failure) and bind `n.String() ↦ JoinHostPort(ip, "6443")` in the
backend map. Returns the accumulated map or the error, plus the
resolution calls issued. -/
def resolveBackends (env : Env) (acc : List (String × String)) :
    List Node → Except Err (List (String × String)) × List Call
  | [] => (Except.ok acc, [])
  | n :: rest =>
      match env.resolveIP n with
      | Except.error e =>
          (Except.error ("failed to get IP for container " ++ n.name ++ ": " ++ e),
           [Call.nodeIP n.name])
      | Except.ok ip =>
          let out := resolveBackends env (mapInsert acc n.name (joinHostPort ip "6443")) rest
          (out.1, Call.nodeIP n.name :: out.2)

/-- `UpdateConfiguration`: fails if no container is attached; otherwise
lists the control-plane nodes, resolves every node's address into the
backend map, renders the config, writes it to `ConfigPath` in the
container, and sends `SIGHUP`. Each step aborts the call on error. -/
def LoadBalancer.updateConfiguration (s : LoadBalancer) (env : Env) :
    Except Err Unit × List Call :=
  match s.container with
  | none =>
      (Except.error "unable to configure load balancer: load balancer container does not exists", [])
  | some _ =>
      let t0 := [Call.listContainers s.name controlPlaneRole]
      match env.listControlPlanes with
      | Except.error e => (Except.error e, t0)
      | Except.ok controlPlaneNodes =>
          let resolved := resolveBackends env [] controlPlaneNodes
          match resolved.1 with
          | Except.error e => (Except.error e, t0 ++ resolved.2)
          | Except.ok backendServers =>
              let data : ConfigData :=
                { controlPlanePort := 6443,
                  backendServers := backendServers,
                  enableStats := true }
              match env.render data with
              | Except.error e => (Except.error e, t0 ++ resolved.2 ++ [Call.render data])
              | Except.ok cfg =>
                  match env.write ConfigPath cfg with
                  | some e =>
                      (Except.error e,
                       t0 ++ resolved.2 ++ [Call.render data, Call.writeFile ConfigPath cfg])
                  | none =>
                      match env.sendSignal "SIGHUP" with
                      | some e =>
                          (Except.error e,
                           t0 ++ resolved.2 ++
                             [Call.render data, Call.writeFile ConfigPath cfg, Call.signal "SIGHUP"])
                      | none =>
                          (Except.ok (),
                           t0 ++ resolved.2 ++
                             [Call.render data, Call.writeFile ConfigPath cfg, Call.signal "SIGHUP"])

/-- Outcome of `IP`: the source calls `s.container.IP(ctx)` with no nil
check, so on an absent container the Go code dereferences a nil
`*types.Node`. Modelled from the spec: the adapter's
`address(handle, ctx)` endpoint requires a handle (`types.Node.IP` is not
under `src/`), so the absent-container path cannot issue the call and is
modelled as `crash`. -/
inductive IPOutcome where
  | crash
  | err (e : Err)
  | ok (ip : String)
deriving DecidableEq, Repr

/-- `IP`: reads the attached container's address (no nil check in the
source); an adapter error is returned as-is (wrapped with a stack only),
an empty address string becomes the "IP cannot be empty" error naming the
container, and otherwise the address is returned. -/
def LoadBalancer.ip (s : LoadBalancer) (env : Env) : IPOutcome × List Call :=
  match s.container with
  | none => (IPOutcome.crash, [])
  | some c =>
      match env.address c with
      | Except.error e => (IPOutcome.err e, [Call.address c.name])
      | Except.ok lbIP =>
          if lbIP = "" then
            (IPOutcome.err ("load balancer IP cannot be empty: container " ++
               s.containerName ++ " does not have an associated IP address"),
             [Call.address c.name])
          else (IPOutcome.ok lbIP, [Call.address c.name])

/-- `Delete`: no-op when no container is attached; otherwise asks the
adapter to delete the unit, returning its error with the handle left
attached, and clearing the handle only on success. -/
def LoadBalancer.delete (s : LoadBalancer) (env : Env) :
    (Except Err Unit × LoadBalancer) × List Call :=
  match s.container with
  | none => ((Except.ok (), s), [])
  | some c =>
      match env.deleteUnit with
      | some e => ((Except.error e, s), [Call.deleteLB c.name])
      | none => ((Except.ok (), { s with container := none }), [Call.deleteLB c.name])

/-- Whether a call is a renderer invocation. -/
def Call.isRender : Call → Bool
  | Call.render _ => true
  | _ => false

/-- Whether a call is a `writeFile` adapter call. -/
def Call.isWrite : Call → Bool
  | Call.writeFile _ _ => true
  | _ => false

/-- Whether a call is a `signal` adapter call. -/
def Call.isSignal : Call → Bool
  | Call.signal _ => true
  | _ => false

/-- Whether a call is an execution-unit creation request. -/
def Call.isCreate : Call → Bool
  | Call.createLB _ _ _ _ _ => true
  | _ => false

/-- The number of creation requests in a trace. -/
def createCount (t : List Call) : Nat :=
  t.countP (fun c => c.isCreate)

/-- A concrete environment used by the witnesses: a fresh cluster `demo`
with two control-plane nodes, all adapter calls succeeding. -/
def envDemo : Env :=
  { lookupLB := Except.ok none,
    listControlPlanes := Except.ok [⟨"cp-0"⟩, ⟨"cp-1"⟩],
    resolveIP := fun n => if n.name = "cp-0" then Except.ok "10.0.0.5" else Except.ok "10.0.0.6",
    render := fun d => Except.ok ("backends=" ++ toString d.backendServers),
    write := fun _ _ => none,
    sendSignal := fun _ => none,
    create := Except.ok ⟨"demo-lb"⟩,
    deleteUnit := none,
    address := fun _ => Except.ok "172.17.0.2" }

/-- The fresh (unprovisioned) instance for cluster `demo`. -/
def lbDemo0 : LoadBalancer :=
  { name := "demo", image := getLoadBalancerImage none, container := none }

/-- The provisioned instance for cluster `demo`. -/
def lbDemo : LoadBalancer :=
  { name := "demo", image := getLoadBalancerImage none, container := some ⟨"demo-lb"⟩ }

/-- Every call issued by the backend-resolution loop is a `nodeIP`
address-resolution call. -/
theorem resolveBackends_trace_nodeIP (env : Env) (acc : List (String × String))
    (nodes : List Node) :
    ∀ call ∈ (resolveBackends env acc nodes).2, ∃ nm, call = Call.nodeIP nm := by
  induction nodes generalizing acc with
  | nil =>
      intro call hcall
      simp [resolveBackends] at hcall
  | cons n rest ih =>
      intro call hcall
      simp only [resolveBackends] at hcall
      cases h : env.resolveIP n with
      | error e =>
          rw [h] at hcall
          simp at hcall
          exact ⟨n.name, hcall⟩
      | ok ip =>
          rw [h] at hcall
          simp at hcall
          cases hcall with
          | inl h1 => exact ⟨n.name, h1⟩
          | inr h2 => exact ih _ call h2

/-- If any node in the list fails address resolution, the whole
backend-resolution loop returns an error, whatever the accumulator. -/
theorem resolveBackends_error_of_mem (env : Env) (nodes : List Node)
    (n : Node) (e : Err) (hn : n ∈ nodes) (he : env.resolveIP n = Except.error e) :
    ∀ acc, ∃ e', (resolveBackends env acc nodes).1 = Except.error e' := by
  induction nodes with
  | nil => cases hn
  | cons m rest ih =>
      intro acc
      cases h : env.resolveIP m with
      | error e2 =>
          exact ⟨"failed to get IP for container " ++ m.name ++ ": " ++ e2,
            by simp [resolveBackends, h]⟩
      | ok ip =>
          rcases List.mem_cons.mp hn with h1 | h2
          · rw [← h1] at h; rw [he] at h; cases h
          · simpa [resolveBackends, h] using ih h2 _

/-- C5: for every instance with no attached execution unit,
`UpdateConfiguration` fails with the "does not exists" (not provisioned)
error and issues zero collaborator calls: no discovery query, no
resolution, no render, no write, no signal. -/
theorem updateConfiguration_absent_fails_no_calls (s : LoadBalancer) (env : Env)
    (h : s.container = none) :
    s.updateConfiguration env =
      (Except.error "unable to configure load balancer: load balancer container does not exists",
       []) := by
  unfold LoadBalancer.updateConfiguration
  rw [h]

/-- Witness for C5: the fresh `demo` instance. -/
theorem updateConfiguration_absent_fails_no_calls_witness :
    lbDemo0.updateConfiguration envDemo =
      (Except.error "unable to configure load balancer: load balancer container does not exists",
       []) :=
  updateConfiguration_absent_fails_no_calls lbDemo0 envDemo rfl

/-- C8: `Create` on an unprovisioned instance attaches a handle only when
the creator succeeds: a creator error is returned and the state is
unchanged (still unprovisioned); on success the returned handle is
attached. -/
theorem create_attaches_handle_only_on_success (s : LoadBalancer) (env : Env)
    (h : s.container = none) :
    (∀ e : Err, env.create = Except.error e →
        (s.create env).1.1 = Except.error e ∧ (s.create env).1.2 = s) ∧
    (∀ node : Node, env.create = Except.ok node →
        (s.create env).1.1 = Except.ok () ∧
        (s.create env).1.2 = { s with container := some node }) := by
  unfold LoadBalancer.create
  rw [h]
  constructor
  · intro e he
    rw [he]
    exact ⟨rfl, rfl⟩
  · intro node hnode
    rw [hnode]
    exact ⟨rfl, rfl⟩

/-- Witness for C8: the fresh `demo` instance, whose creator succeeds
with the handle `demo-lb`, ends with that handle attached. -/
theorem create_attaches_handle_only_on_success_witness :
    (lbDemo0.create envDemo).1.2 =
      { name := "demo", image := getLoadBalancerImage none,
        container := some ⟨"demo-lb"⟩ } :=
  ((create_attaches_handle_only_on_success lbDemo0 envDemo rfl).2 ⟨"demo-lb"⟩ rfl).2

/-- C4: if the adapter's delete fails, `Delete` returns that error and
leaves the handle attached, so a subsequent `Delete` issues the same
deletion request; the handle is cleared only after the adapter confirms,
and `Delete` on an unprovisioned instance is a successful no-op with no
calls. -/
theorem delete_error_leaves_handle_attached (s : LoadBalancer) (env env' : Env)
    (c : Node) (e : Err) (hc : s.container = some c)
    (he : env.deleteUnit = some e) :
    (s.delete env).1.1 = Except.error e ∧
    (s.delete env).1.2 = s ∧
    (s.delete env).2 = [Call.deleteLB c.name] ∧
    ((s.delete env).1.2.delete env').2 = [Call.deleteLB c.name] ∧
    (env'.deleteUnit = none → ((s.delete env).1.2.delete env').1.2.container = none) ∧
    (∀ s0 : LoadBalancer, s0.container = none →
        s0.delete env' = ((Except.ok (), s0), [])) := by
  have h1 : s.delete env = ((Except.error e, s), [Call.deleteLB c.name]) := by
    unfold LoadBalancer.delete
    rw [hc, he]
  refine ⟨by rw [h1], by rw [h1], by rw [h1], ?_, ?_, ?_⟩
  · rw [h1]
    unfold LoadBalancer.delete
    rw [hc]
    cases h : env'.deleteUnit <;> simp
  · intro hok
    rw [h1]
    unfold LoadBalancer.delete
    rw [hc, hok]
  · intro s0 h0
    unfold LoadBalancer.delete
    rw [h0]

/-- Witness for C4: the provisioned `demo` instance against an adapter
whose delete fails, then one whose delete succeeds. -/
theorem delete_error_leaves_handle_attached_witness :
    (lbDemo.delete { envDemo with deleteUnit := some "boom" }).1.2 = lbDemo ∧
    ((lbDemo.delete { envDemo with deleteUnit := some "boom" }).1.2.delete envDemo).1.2.container
      = none := by
  have h := delete_error_leaves_handle_attached lbDemo
    { envDemo with deleteUnit := some "boom" } envDemo ⟨"demo-lb"⟩ "boom" rfl rfl
  exact ⟨h.2.1, h.2.2.2.2.1 rfl⟩

/-- C6: on a provisioned instance, an adapter address lookup that
succeeds with the empty string makes `IP` return the
"IP cannot be empty" error naming the container — never a successful
empty result — while an adapter-level lookup failure is returned as-is. -/
theorem ip_empty_address_is_error (s : LoadBalancer) (env : Env) (c : Node)
    (hc : s.container = some c) :
    (env.address c = Except.ok "" →
        (s.ip env).1 = IPOutcome.err ("load balancer IP cannot be empty: container " ++
          s.containerName ++ " does not have an associated IP address") ∧
        ∀ ip : String, (s.ip env).1 ≠ IPOutcome.ok ip) ∧
    (∀ e : Err, env.address c = Except.error e → (s.ip env).1 = IPOutcome.err e) := by
  constructor
  · intro hempty
    have h1 : s.ip env =
        (IPOutcome.err ("load balancer IP cannot be empty: container " ++
           s.containerName ++ " does not have an associated IP address"),
         [Call.address c.name]) := by
      unfold LoadBalancer.ip
      rw [hc]
      simp [hempty]
    exact ⟨by rw [h1], by rw [h1]; intro ip hip; cases hip⟩
  · intro e he
    unfold LoadBalancer.ip
    rw [hc]
    simp [he]

/-- Witness for C6: the provisioned `demo` instance whose adapter reports
the empty address string. -/
theorem ip_empty_address_is_error_witness :
    (lbDemo.ip { envDemo with address := fun _ => Except.ok "" }).1 =
      IPOutcome.err ("load balancer IP cannot be empty: container " ++
        lbDemo.containerName ++ " does not have an associated IP address") :=
  ((ip_empty_address_is_error lbDemo { envDemo with address := fun _ => Except.ok "" }
    ⟨"demo-lb"⟩ rfl).1 rfl).1

/-- C7 (code bug): on an Absent instance (no attached execution unit,
e.g. after a successful `Delete`), `UpdateConfiguration` does return the
reported "does not exists" error, but `IP` dereferences the nil container
handle (`s.container.IP(ctx)` with no nil check) and crashes rather than
returning a `NotProvisioned` error. -/
theorem ip_absent_container_crashes :
    (lbDemo0.ip envDemo).1 = IPOutcome.crash ∧
    ((lbDemo.delete envDemo).1.2.ip envDemo).1 = IPOutcome.crash ∧
    (lbDemo0.updateConfiguration envDemo).1 =
      Except.error "unable to configure load balancer: load balancer container does not exists" :=
  ⟨rfl, rfl, rfl⟩

/-- C3: for every non-empty cluster identity, after a `Construct` that
found no pre-existing load-balancer container, calling `Create` twice
against a succeeding creator issues exactly one creation request: the
second call is a successful no-op issuing zero calls, because the
instance already has an attached execution unit. -/
theorem construct_create_twice_one_creation
    (name : String) (ov : Option String) (env : Env) (node : Node) (lb0 : LoadBalancer)
    (hname : name ≠ "")
    (hlook : env.lookupLB = Except.ok none)
    (h0 : (newLoadBalancer name ov env).1 = Except.ok lb0)
    (hcr : env.create = Except.ok node) :
    createCount ((newLoadBalancer name ov env).2 ++ (lb0.create env).2 ++
        ((lb0.create env).1.2.create env).2) = 1 ∧
    ((lb0.create env).1.2.create env).2 = [] ∧
    ((lb0.create env).1.2.create env).1.1 = Except.ok () ∧
    ((lb0.create env).1.2).container = some node := by
  have hlb : lb0 = { name := name, image := getLoadBalancerImage ov, container := none } := by
    unfold newLoadBalancer at h0
    rw [if_neg hname, hlook] at h0
    exact (Except.ok.injEq _ _).mp h0.symm
  subst hlb
  unfold newLoadBalancer LoadBalancer.create
  simp [hname, hlook, hcr, createCount, Call.isCreate]

/-- Witness for C3: cluster `demo` with the default image against the
all-succeeding adapter. -/
theorem construct_create_twice_one_creation_witness :
    createCount ((newLoadBalancer "demo" none envDemo).2 ++ (lbDemo0.create envDemo).2 ++
        ((lbDemo0.create envDemo).1.2.create envDemo).2) = 1 ∧
    ((lbDemo0.create envDemo).1.2.create envDemo).2 = [] :=
  let h := construct_create_twice_one_creation "demo" none envDemo ⟨"demo-lb"⟩ lbDemo0
    (by decide) rfl rfl rfl
  ⟨h.1, h.2.1⟩

/-- C10: when discovery returns zero control-plane nodes on a provisioned
instance, `UpdateConfiguration` does not fail on emptiness: it renders the
config from the empty backend set, writes it to the config path, sends the
reload signal, and succeeds when those calls succeed. -/
theorem updateConfiguration_empty_discovery_removes_backends
    (s : LoadBalancer) (env : Env) (c : Node) (cfg : String)
    (hc : s.container = some c)
    (hl : env.listControlPlanes = Except.ok [])
    (hr : env.render { controlPlanePort := 6443, backendServers := [], enableStats := true }
        = Except.ok cfg)
    (hw : env.write ConfigPath cfg = none)
    (hs : env.sendSignal "SIGHUP" = none) :
    s.updateConfiguration env =
      (Except.ok (),
       [Call.listContainers s.name controlPlaneRole,
        Call.render { controlPlanePort := 6443, backendServers := [], enableStats := true },
        Call.writeFile ConfigPath cfg, Call.signal "SIGHUP"]) := by
  unfold LoadBalancer.updateConfiguration
  rw [hc]
  simp [hl, resolveBackends, hr, hw, hs]

/-- Witness for C10: the provisioned `demo` instance with empty
discovery. -/
theorem updateConfiguration_empty_discovery_removes_backends_witness :
    lbDemo.updateConfiguration { envDemo with listControlPlanes := Except.ok [] } =
      (Except.ok (),
       [Call.listContainers "demo" controlPlaneRole,
        Call.render { controlPlanePort := 6443, backendServers := [], enableStats := true },
        Call.writeFile ConfigPath "backends=[]", Call.signal "SIGHUP"]) :=
  updateConfiguration_empty_discovery_removes_backends lbDemo
    { envDemo with listControlPlanes := Except.ok [] } ⟨"demo-lb"⟩ "backends=[]"
    rfl rfl rfl rfl rfl

/-- C1: on a provisioned instance, if resolving the network address of
any discovered control-plane node fails, `UpdateConfiguration` returns an
error and performs no config-render, no `writeFile` and no `signal` call:
no partial backend set is ever rendered or written. -/
theorem updateConfiguration_resolution_failure_all_or_nothing
    (s : LoadBalancer) (env : Env) (c : Node) (nodes : List Node) (n : Node) (e : Err)
    (hc : s.container = some c)
    (hl : env.listControlPlanes = Except.ok nodes)
    (hn : n ∈ nodes)
    (he : env.resolveIP n = Except.error e) :
    (∃ e', (s.updateConfiguration env).1 = Except.error e') ∧
    ∀ call ∈ (s.updateConfiguration env).2,
      call.isRender = false ∧ call.isWrite = false ∧ call.isSignal = false := by
  obtain ⟨e', he'⟩ := resolveBackends_error_of_mem env nodes n e hn he []
  constructor
  · refine ⟨e', ?_⟩
    unfold LoadBalancer.updateConfiguration
    rw [hc]
    simp [hl, he']
  · intro call hcall
    unfold LoadBalancer.updateConfiguration at hcall
    rw [hc] at hcall
    simp [hl, he'] at hcall
    cases hcall with
    | inl h1 => rw [h1]; exact ⟨rfl, rfl, rfl⟩
    | inr h2 =>
        obtain ⟨nm, h3⟩ := resolveBackends_trace_nodeIP env [] nodes call h2
        rw [h3]
        exact ⟨rfl, rfl, rfl⟩

/-- Witness for C1: the provisioned `demo` instance with a node whose
resolution fails. -/
theorem updateConfiguration_resolution_failure_all_or_nothing_witness :
    (∃ e', (lbDemo.updateConfiguration
        { envDemo with resolveIP := fun _ => Except.error "no ip" }).1 = Except.error e') ∧
    ∀ call ∈ (lbDemo.updateConfiguration
        { envDemo with resolveIP := fun _ => Except.error "no ip" }).2,
      call.isRender = false ∧ call.isWrite = false ∧ call.isSignal = false :=
  updateConfiguration_resolution_failure_all_or_nothing lbDemo
    { envDemo with resolveIP := fun _ => Except.error "no ip" }
    ⟨"demo-lb"⟩ [⟨"cp-0"⟩, ⟨"cp-1"⟩] ⟨"cp-0"⟩ "no ip"
    rfl rfl (List.mem_cons_self _ _) rfl

/-- C9: whenever `UpdateConfiguration` reaches the write step, the bytes
written to the config path are exactly the renderer's output for the
backend set built from discovery (identity ↦ resolved address joined with
port 6443): every `writeFile` call in the trace carries precisely
`ConfigPath` and the rendered document, with no core-side mutation. -/
theorem updateConfiguration_writes_rendered_config
    (s : LoadBalancer) (env : Env) (c : Node) (nodes : List Node)
    (backends : List (String × String)) (cfg : String)
    (hc : s.container = some c)
    (hl : env.listControlPlanes = Except.ok nodes)
    (hb : (resolveBackends env [] nodes).1 = Except.ok backends)
    (hr : env.render { controlPlanePort := 6443, backendServers := backends, enableStats := true }
        = Except.ok cfg) :
    Call.writeFile ConfigPath cfg ∈ (s.updateConfiguration env).2 ∧
    ∀ p x, Call.writeFile p x ∈ (s.updateConfiguration env).2 → p = ConfigPath ∧ x = cfg := by
  have hres : ∀ p x, Call.writeFile p x ∈ (resolveBackends env [] nodes).2 → False := by
    intro p x hmem
    obtain ⟨nm, h4⟩ := resolveBackends_trace_nodeIP env [] nodes _ hmem
    cases h4
  unfold LoadBalancer.updateConfiguration
  rw [hc]
  cases hw : env.write ConfigPath cfg with
  | some e =>
      constructor
      · simp [hl, hb, hr, hw]
      · intro p x hmem
        simp [hl, hb, hr, hw] at hmem
        rcases hmem with h1 | h2
        · exact absurd h1 (fun h => hres p x h)
        · exact ⟨h2.1, h2.2⟩
  | none =>
      cases hsg : env.sendSignal "SIGHUP" with
      | some e2 =>
          constructor
          · simp [hl, hb, hr, hw, hsg]
          · intro p x hmem
            simp [hl, hb, hr, hw, hsg] at hmem
            rcases hmem with h1 | h2
            · exact absurd h1 (fun h => hres p x h)
            · exact ⟨h2.1, h2.2⟩
      | none =>
          constructor
          · simp [hl, hb, hr, hw, hsg]
          · intro p x hmem
            simp [hl, hb, hr, hw, hsg] at hmem
            rcases hmem with h1 | h2
            · exact absurd h1 (fun h => hres p x h)
            · exact ⟨h2.1, h2.2⟩

/-- Witness for C9: the provisioned `demo` instance, two control-plane
nodes at `10.0.0.5` and `10.0.0.6`. -/
theorem updateConfiguration_writes_rendered_config_witness :
    Call.writeFile ConfigPath "backends=[(cp-0, 10.0.0.5:6443), (cp-1, 10.0.0.6:6443)]"
      ∈ (lbDemo.updateConfiguration envDemo).2 :=
  (updateConfiguration_writes_rendered_config lbDemo envDemo ⟨"demo-lb"⟩
    [⟨"cp-0"⟩, ⟨"cp-1"⟩] [("cp-0", "10.0.0.5:6443"), ("cp-1", "10.0.0.6:6443")]
    "backends=[(cp-0, 10.0.0.5:6443), (cp-1, 10.0.0.6:6443)]" rfl rfl (by rfl) (by rfl)).1

/-- C2: the reload signal is sent only after a successful config write —
whenever a `signal` call appears in the trace, a `writeFile` call for a
config the adapter accepted precedes it in the run — and
`UpdateConfiguration` succeeds only when both the write and the signal
completed. -/
theorem updateConfiguration_signal_only_after_successful_write
    (s : LoadBalancer) (env : Env) :
    (∀ sig, Call.signal sig ∈ (s.updateConfiguration env).2 →
        ∃ cfg, Call.writeFile ConfigPath cfg ∈ (s.updateConfiguration env).2 ∧
          env.write ConfigPath cfg = none) ∧
    ((s.updateConfiguration env).1 = Except.ok () →
        ∃ cfg, env.write ConfigPath cfg = none ∧ env.sendSignal "SIGHUP" = none ∧
          Call.writeFile ConfigPath cfg ∈ (s.updateConfiguration env).2 ∧
          Call.signal "SIGHUP" ∈ (s.updateConfiguration env).2) := by
  have hresig : ∀ nodes sig, Call.signal sig ∈ (resolveBackends env [] nodes).2 → False := by
    intro nodes sig hmem
    obtain ⟨nm, h4⟩ := resolveBackends_trace_nodeIP env [] nodes _ hmem
    cases h4
  cases hcont : s.container with
  | none =>
      constructor
      · intro sig hsig
        unfold LoadBalancer.updateConfiguration at hsig
        rw [hcont] at hsig
        simp at hsig
      · intro hok
        unfold LoadBalancer.updateConfiguration at hok
        rw [hcont] at hok
        simp at hok
  | some c =>
      cases hl : env.listControlPlanes with
      | error e =>
          constructor
          · intro sig hsig
            unfold LoadBalancer.updateConfiguration at hsig
            rw [hcont] at hsig
            simp [hl] at hsig
          · intro hok
            unfold LoadBalancer.updateConfiguration at hok
            rw [hcont] at hok
            simp [hl] at hok
      | ok nodes =>
          cases hb : (resolveBackends env [] nodes).1 with
          | error e =>
              constructor
              · intro sig hsig
                unfold LoadBalancer.updateConfiguration at hsig
                rw [hcont] at hsig
                simp [hl, hb] at hsig
                exact (hresig nodes sig hsig).elim
              · intro hok
                unfold LoadBalancer.updateConfiguration at hok
                rw [hcont] at hok
                simp [hl, hb] at hok
          | ok backends =>
              cases hren : env.render
                  { controlPlanePort := 6443, backendServers := backends,
                    enableStats := true } with
              | error e =>
                  constructor
                  · intro sig hsig
                    unfold LoadBalancer.updateConfiguration at hsig
                    rw [hcont] at hsig
                    simp [hl, hb, hren] at hsig
                    exact (hresig nodes sig hsig).elim
                  · intro hok
                    unfold LoadBalancer.updateConfiguration at hok
                    rw [hcont] at hok
                    simp [hl, hb, hren] at hok
              | ok cfg =>
                  cases hw : env.write ConfigPath cfg with
                  | some e =>
                      constructor
                      · intro sig hsig
                        unfold LoadBalancer.updateConfiguration at hsig
                        rw [hcont] at hsig
                        simp [hl, hb, hren, hw] at hsig
                        exact (hresig nodes sig hsig).elim
                      · intro hok
                        unfold LoadBalancer.updateConfiguration at hok
                        rw [hcont] at hok
                        simp [hl, hb, hren, hw] at hok
                  | none =>
                      cases hsg : env.sendSignal "SIGHUP" with
                      | some e2 =>
                          constructor
                          · intro sig hsig
                            refine ⟨cfg, ?_, hw⟩
                            unfold LoadBalancer.updateConfiguration
                            rw [hcont]
                            simp [hl, hb, hren, hw, hsg]
                          · intro hok
                            unfold LoadBalancer.updateConfiguration at hok
                            rw [hcont] at hok
                            simp [hl, hb, hren, hw, hsg] at hok
                      | none =>
                          constructor
                          · intro sig hsig
                            refine ⟨cfg, ?_, hw⟩
                            unfold LoadBalancer.updateConfiguration
                            rw [hcont]
                            simp [hl, hb, hren, hw, hsg]
                          · intro hok
                            refine ⟨cfg, hw, rfl, ?_, ?_⟩ <;>
                              (unfold LoadBalancer.updateConfiguration
                               rw [hcont]
                               simp [hl, hb, hren, hw, hsg])

/-- Witness for C2: the provisioned `demo` instance against an adapter
whose write fails: the run errors and issues no signal call. -/
theorem updateConfiguration_signal_only_after_successful_write_witness :
    ∀ sig, Call.signal sig ∈
        (lbDemo.updateConfiguration { envDemo with write := fun _ _ => some "disk full" }).2 →
      ∃ cfg, Call.writeFile ConfigPath cfg ∈
          (lbDemo.updateConfiguration { envDemo with write := fun _ _ => some "disk full" }).2 ∧
        ({ envDemo with write := fun _ _ => some "disk full" } : Env).write ConfigPath cfg
          = none :=
  (updateConfiguration_signal_only_after_successful_write lbDemo
    { envDemo with write := fun _ _ => some "disk full" }).1

end CAPD
